import Mathlib

/-!
# Verification of the fleet deployment orchestrator

This development shallowly embeds the deployment pipelines of the repository
(the GitHub Actions workflows reproduced in `WORKFLOW-DOCUMENTATION.md` and in
the design document) and proves or refutes the specification's claims about
them.

Two pipelines are embedded:

* the ASG fleet pipelines of `WORKFLOW-DOCUMENTATION.md` (`deploy-frontend.yml`
  and `deploy-backend.yml` for Auto Scaling Groups): S3 upload of a timestamped
  version plus a mutable `latest/` key, dynamic instance discovery, one SSM
  deploy command fanned out to the fleet with a bounded polling loop, and a
  health probe on the first instance;
* the single-instance pipelines of the design document (`part_001`): backup via
  SSM (a remote command ending in `|| true`), deploy, health check, and a
  `Rollback on failure` step guarded by `if: failure()`.

External services (S3, the SSM transport, the shell commands on the instance)
are modelled as explicit inputs: an environment record says what status each
SSM invocation reaches at each polling instant, whether each S3 write succeeds,
and whether each remote shell command succeeds.  All definitions are
executable, so each theorem's concrete instances evaluate by `decide` / `rfl`.
-/

/-- Per-target status of an SSM command invocation, as polled by
`aws ssm list-command-invocations` / `get-command-invocation`. -/
inductive SsmStatus where
  | pending
  | inProgress
  | success
  | failed
  | cancelled
  | timedOut
deriving DecidableEq, Repr

/-- Statuses matched by the workflows' `grep -E "Failed|Cancelled|TimedOut"`. -/
def SsmStatus.isFailedLike : SsmStatus → Bool
  | .failed => true
  | .cancelled => true
  | .timedOut => true
  | _ => false

/-- Statuses matched by the workflows' `grep -E "Pending|InProgress"`. -/
def SsmStatus.isPendingLike : SsmStatus → Bool
  | .pending => true
  | .inProgress => true
  | _ => false

/-- A status from which SSM never moves the invocation again
(`CommandInvocation` is "immutable once terminal"). -/
def SsmStatus.isTerminal : SsmStatus → Bool
  | .success => true
  | .failed => true
  | .cancelled => true
  | .timedOut => true
  | _ => false

/-- Final verdict of a deployment run.  `noop` is the terminal state of a run
whose fleet resolved to zero instances (the workflow skips every SSM step and
finishes without error); `rolledBack` is the terminal state of the design
document's pipelines when the `Rollback on failure` step completed. -/
inductive Verdict where
  | success
  | failed
  | rolledBack
  | noop
deriving DecidableEq, Repr

/-! ## Object store and Artifact Publisher

The store is the S3 bucket, a map from key to object bytes.  The publish step
of both deploy workflows (`Upload build to S3` / `Package backend and upload to
S3`) writes the artifact twice: under a timestamped version key and under the
stable `latest` key of the group.  The step's shell runs with `-e`, so a failed
first write stops the step before the second write, and a failed second write
stops the step after the versioned object is already stored; no cleanup is
performed. -/

/-- The S3 bucket contents. -/
def Store := String → Option String

/-- Write one object into the store. -/
def Store.put (s : Store) (k v : String) : Store :=
  fun q => if q = k then some v else s q

/-- The store with no objects. -/
def emptyStore : Store := fun _ => none

/-- Timestamped version key: `{group}/{timestamp}` (frontend uses the prefix
`frontend/$TIMESTAMP/`, backend `backend/backend-$TIMESTAMP.zip`; both are
abstracted as one immutable key per version). -/
def vKey (group ts : String) : String := group ++ "/" ++ ts

/-- Stable "current" key: `{group}/latest` (frontend `frontend/latest/`,
backend `backend/latest/backend.zip`). -/
def cKey (group : String) : String := group ++ "/latest"

/-- Result of one publish step: whether the step succeeded, and the store it
leaves behind. -/
structure PubResult where
  ok : Bool
  store : Store

/-- The publish step.  `putOk k` says whether the S3 write of key `k`
succeeds.  First the timestamped write, then the `latest` write; the step
fails as soon as one write fails (shell `-e`), and never removes the
already-written versioned object. -/
def publish (putOk : String → Bool) (s : Store) (group ts bytes : String) :
    PubResult :=
  if putOk (vKey group ts) then
    let s1 := s.put (vKey group ts) bytes
    if putOk (cKey group) then
      { ok := true, store := s1.put (cKey group) bytes }
    else
      { ok := false, store := s1 }
  else
    { ok := false, store := s }

/-- Read the mutable "current" pointer of a group (what a freshly launched ASG
instance downloads in its user data). -/
def fetchCurrent (s : Store) (group : String) : Option String :=
  s (cKey group)

/-! ## Fleet pipeline (WORKFLOW-DOCUMENTATION.md, parts 1 and 2)

The two ASG deploy workflows differ only in group name, polling budget, sleep
interval, health-probe settle delay and probe path, so they are embedded as
one parametric run over a configuration record (the spec's own unification).

Targets (EC2 instance ids) are modelled as natural numbers.  The steps, in the
workflow's order:

1. `Upload build to S3`: write timestamped version, then `latest/` (the
   mutable "current" pointer) — both before any instance is contacted;
2. `Get ASG Instance IDs`: query the fleet registry; `INSTANCE_COUNT=0` is a
   warning, not an error, and the run then skips every SSM step;
3. `Deploy to all ASG instances via SSM` (guarded by `INSTANCE_COUNT != 0`):
   one `send-command` to the whole fleet, then the polling loop
   `for i in {1..budget}` that exits with failure if any polled status matches
   `Failed|Cancelled|TimedOut`, breaks when no status matches
   `Pending|InProgress`, and otherwise sleeps and retries — when the budget is
   exhausted the `for` loop simply ends and the step continues with exit 0;
4. `Health check via SSM` (same guard): one command to the first instance of
   the list, whose remote script sleeps for the settle delay and curls
   localhost; non-200 exits 1 and fails the run;
5. `Deployment summary` under `if: success()`.

These workflows contain no backup step and no rollback step, so the
corresponding dispatch lists of a run's result are constantly empty. -/

/-- Per-tier parameters of the fleet pipeline. -/
structure FleetCfg where
  group : String
  /-- polling attempts: `for i in {1..20}` (frontend) / `{1..30}` (backend) -/
  budget : Nat
  /-- `sleep 5` (frontend) / `sleep 10` (backend) between polls -/
  sleepSec : Nat
  /-- remote `sleep 3` (frontend) / `sleep 5` (backend) before the probe curl -/
  settleSec : Nat
  /-- probed path: `http://localhost/` (frontend) / `http://localhost/books` -/
  probePath : String
deriving DecidableEq, Repr

/-- `deploy-frontend.yml` parameters. -/
def frontendCfg : FleetCfg :=
  { group := "frontend", budget := 20, sleepSec := 5, settleSec := 3,
    probePath := "/" }

/-- `deploy-backend.yml` parameters. -/
def backendCfg : FleetCfg :=
  { group := "backend", budget := 30, sleepSec := 10, settleSec := 5,
    probePath := "/books" }

/-- External behaviour observed by one fleet run: the resolved fleet, the
status each instance's deploy invocation shows at each polling attempt, the
status the invocation finally settles in, and the result of the health probe
command. -/
structure FleetEnv where
  /-- `InService` instance ids returned by `describe-auto-scaling-groups` -/
  fleet : List Nat
  /-- status of the deploy invocation on instance `t` at polling attempt `i` -/
  statusAt : Nat → Nat → SsmStatus
  /-- status the deploy invocation on instance `t` eventually settles in -/
  deployFinal : Nat → SsmStatus
  /-- whether the remote probe curl returned HTTP 200 -/
  probePass : Bool

/-- Outcome of the polling loop of the deploy step. -/
inductive PollResult where
  /-- some polled status matched `Failed|Cancelled|TimedOut`: `exit 1` -/
  | failedPoll
  /-- no polled status matched `Pending|InProgress`: `break` -/
  | completed
  /-- the attempt budget ran out: the `for` loop ends without error -/
  | exhausted
deriving DecidableEq, Repr

/-- The polling loop, starting at attempt `i` with `remaining` attempts left.
Each attempt lists the per-instance statuses; failure is checked before
completion, mirroring the order of the two `if` tests in the step. -/
def pollLoop (statusAt : Nat → Nat → SsmStatus) (fleet : List Nat) :
    Nat → Nat → PollResult
  | _, 0 => .exhausted
  | i, remaining + 1 =>
    let sts := fleet.map (statusAt i)
    if sts.any SsmStatus.isFailedLike then .failedPoll
    else if sts.all (fun s => !s.isPendingLike) then .completed
    else pollLoop statusAt fleet (i + 1) remaining

/-- The health-probe dispatch: its target list, the settle delay its remote
script begins with, and the probed path. -/
structure ProbeDispatch where
  targets : List Nat
  settleSec : Nat
  path : String
deriving DecidableEq, Repr

/-- Everything one fleet run leaves behind: its verdict, the store, and which
SSM command sets were dispatched to which targets. -/
structure FleetResult where
  verdict : Verdict
  store : Store
  /-- targets of the deploy command set (`[]` when the step was skipped) -/
  deployTargets : List Nat
  /-- targets of a backup command set — no such step exists in these workflows -/
  backupTargets : List Nat
  /-- the health-probe dispatch, when the run reached that step -/
  probe : Option ProbeDispatch
  /-- targets of a restore command set — no such step exists in these workflows -/
  restoreTargets : List Nat

/-- One run of a fleet deploy workflow on initial store `store0`, publishing
artifact bytes `artifact` under timestamp `ts`.  Publishing is unconditional
and precedes instance discovery; the deploy and probe steps are skipped when
the fleet is empty. -/
def runFleet (cfg : FleetCfg) (env : FleetEnv) (store0 : Store)
    (artifact ts : String) : FleetResult :=
  let store1 := (store0.put (vKey cfg.group ts) artifact).put
    (cKey cfg.group) artifact
  if env.fleet.isEmpty then
    { verdict := .noop, store := store1, deployTargets := [],
      backupTargets := [], probe := none, restoreTargets := [] }
  else
    match pollLoop env.statusAt env.fleet 1 cfg.budget with
    | .failedPoll =>
      { verdict := .failed, store := store1, deployTargets := env.fleet,
        backupTargets := [], probe := none, restoreTargets := [] }
    | _ =>
      let pr : ProbeDispatch :=
        { targets := [env.fleet.headD 0], settleSec := cfg.settleSec,
          path := cfg.probePath }
      { verdict := if env.probePass then .success else .failed,
        store := store1, deployTargets := env.fleet, backupTargets := [],
        probe := some pr, restoreTargets := [] }

/-- Consistency of an environment with SSM's invocation semantics, on the
polling window: every instance's invocation eventually settles in a terminal
status, and a terminal status shown during the window is already that final
status (terminal invocations are immutable). -/
def WFFleet (cfg : FleetCfg) (env : FleetEnv) : Prop :=
  ∀ t ∈ env.fleet, (env.deployFinal t).isTerminal = true ∧
    ∀ i < cfg.budget + 1, (env.statusAt i t).isTerminal = true →
      env.statusAt i t = env.deployFinal t

instance (cfg : FleetCfg) (env : FleetEnv) : Decidable (WFFleet cfg env) := by
  unfold WFFleet
  infer_instance

/-! ## Single-instance pipeline (design document, `part_001`)

The design document's `deploy-frontend.yml` / `deploy-backend.yml` target one
instance and add two steps around the deploy: a backup step before it and a
`Rollback on failure` step (guarded by `if: failure()`) after it.

* `Backup current deployment via SSM` sends
  `cp -r <live> <live>.backup.$(date ...) 2>/dev/null || true` and waits for
  the invocation.  Because of the trailing `|| true`, the remote command exits
  0 whether or not the copy succeeded, so the invocation reports `Success`
  whenever it is deliverable; only an undeliverable/failed invocation (SSM
  agent unreachable, `wait command-executed` failure) fails the step.
* The deploy step dispatches the deploy command set and fails when the
  invocation does not reach `Success`.
* The health-check step sleeps on the runner and dispatches a `curl || exit 1`
  probe; a failing probe fails the step.
* `Rollback on failure` runs when any earlier step failed.  Its remote script
  picks `ls -td <live>.backup.* | head -1` — the newest backup — and restores
  it only if one exists; the invocation succeeds either way, so the step fails
  only when the restore invocation itself fails.  On step success the workflow
  logs "Rolled back to previous deployment" (verdict `rolledBack`); if the
  restore invocation fails, the job ends plainly `failed`.

The instance's state is its live deployment content plus its list of backup
directories, newest first. -/

/-- State of the single target instance. -/
structure Node where
  /-- content of the live deployment directory (`none`: directory absent) -/
  live : Option String
  /-- backup directories, newest first -/
  backups : List String
deriving DecidableEq, Repr

/-- External behaviour observed by one single-instance run. -/
structure SingleEnv where
  /-- the backup invocation is deliverable and `wait command-executed` passes
  (the remote command itself always exits 0 because of `|| true`) -/
  backupDeliverable : Bool
  /-- the remote `cp -r` of the live directory into a backup directory
  actually succeeds (for example, it fails when the disk is full) -/
  backupCpOk : Bool
  /-- the deploy invocation reaches status `Success` -/
  deployOk : Bool
  /-- live content left behind by a deploy invocation that did not succeed -/
  failedLive : Option String
  /-- the health-check probe passes -/
  healthOk : Bool
  /-- the restore invocation completes (`wait command-executed` passes) -/
  restoreOk : Bool
deriving DecidableEq, Repr

/-- Everything one single-instance run leaves behind. -/
structure SingleResult where
  verdict : Verdict
  node : Node
  /-- the backup command set was dispatched to the instance -/
  backupDispatched : Bool
  /-- a backup of the pre-run live state actually exists afterwards -/
  backupCreated : Bool
  /-- the deploy command set was dispatched to the instance -/
  deployDispatched : Bool
  /-- the health-probe command was dispatched -/
  probeDispatched : Bool
  /-- the restore command set was dispatched -/
  restoreDispatched : Bool
deriving DecidableEq, Repr

/-- Effect of the backup remote command on the instance: push a copy of the
live directory onto the backup list when the copy succeeds and there is
something to copy; otherwise leave the node unchanged (the `|| true` swallows
the failure either way). -/
def doBackup (env : SingleEnv) (n : Node) : Node :=
  if env.backupCpOk then
    match n.live with
    | some v => { n with backups := v :: n.backups }
    | none => n
  else n

/-- The `Rollback on failure` step, entered after some earlier step failed.
The remote script restores the newest backup if one exists; when the restore
invocation itself fails, the node is left as it was (the effect of a failed
invocation is not observed by the workflow) and the run ends `failed`. -/
def rollbackStep (env : SingleEnv) (n : Node) (backupDispatched
    backupCreated deployDispatched probeDispatched : Bool) : SingleResult :=
  let restored : Node :=
    if env.restoreOk then
      match n.backups.head? with
      | some b => { n with live := some b }
      | none => n
    else n
  { verdict := if env.restoreOk then .rolledBack else .failed,
    node := restored,
    backupDispatched := backupDispatched, backupCreated := backupCreated,
    deployDispatched := deployDispatched, probeDispatched := probeDispatched,
    restoreDispatched := true }

/-- One run of a single-instance deploy workflow of the design document on
initial instance state `n0`, deploying artifact content `artifact`.  Steps in
order: backup, deploy, health check; on the first failing step the remaining
ordinary steps are skipped and `rollbackStep` runs. -/
def runSingle (env : SingleEnv) (n0 : Node) (artifact : String) :
    SingleResult :=
  if env.backupDeliverable then
    let n1 := doBackup env n0
    let created := env.backupCpOk && n0.live.isSome
    if env.deployOk then
      let n2 : Node := { n1 with live := some artifact }
      if env.healthOk then
        { verdict := .success, node := n2,
          backupDispatched := true, backupCreated := created,
          deployDispatched := true, probeDispatched := true,
          restoreDispatched := false }
      else
        rollbackStep env n2 true created true true
    else
      rollbackStep env { n1 with live := env.failedLive } true created true
        false
  else
    rollbackStep env n0 true false false false

/-! ## Backend packaging and deploy-command effect (C10)

`Package backend and upload to S3` zips the backend source with
`zip -r ... -x "node_modules/*" -x ".env"`, and the deploy command set unzips
the artifact into `app.new`, copies the instance's existing `app/.env` into
`app.new` (`cp app/.env app.new/.env 2>/dev/null || echo ...` — a missing
source file is tolerated), installs dependencies, and promotes `app.new` to
`app`.  Directories are modelled as maps from file name to content. -/

/-- Paths excluded from the deployment package by the two `-x` patterns. -/
def excludedFromZip (name : String) : Bool :=
  name = ".env" || name.startsWith "node_modules/"

/-- The packaged artifact produced from the backend source tree. -/
def packageBackend (src : String → Option String) : String → Option String :=
  fun name => if excludedFromZip name then none else src name

/-- Contents of the application directory after a successful run of the deploy
command set: `app.new` holds the unzipped artifact, then `.env` is copied in
from the old `app` when it exists there, then `app.new` is promoted. -/
def backendDeployApply (artifact oldApp : String → Option String) :
    String → Option String :=
  fun name =>
    if name = ".env" then
      match oldApp ".env" with
      | some v => some v
      | none => artifact ".env"
    else artifact name

/-! ## Concurrency-group scheduler (C8)

Both deploy workflows declare

```
concurrency:
  group: deploy-<tier>
  cancel-in-progress: false
```

The scheduler that honours this declaration is GitHub Actions platform
behaviour, not code of this repository, so it is modelled from the spec:
"a new trigger while one is active does not cancel the active run …
and either waits or is dropped depending on configuration, never runs
interleaved", together with the platform rule that a concurrency group holds
at most one pending run (a newer trigger drops the older pending one).  With
`cancel-in-progress: true` a new trigger would instead cancel the active
run. -/

/-- A scheduler event: a workflow trigger carrying a run id, or the active
run reaching a terminal state. -/
inductive SchedEv where
  | trig (id : Nat)
  | finish
deriving DecidableEq, Repr

/-- Scheduler state of one concurrency group: the non-terminal (running) runs
and the pending run, if any. -/
structure Sched where
  active : List Nat
  queuedRun : Option Nat
deriving DecidableEq, Repr

/-- The group with no runs. -/
def schedInit : Sched := { active := [], queuedRun := none }

/-- One scheduler step.  Returns the new state, the active runs cancelled by
this event, and the pending runs dropped by it. -/
def schedStep (cancelInProgress : Bool) (s : Sched) :
    SchedEv → Sched × List Nat × List Nat
  | .trig id =>
    if s.active.isEmpty then
      ({ active := [id], queuedRun := none }, [], s.queuedRun.toList)
    else if cancelInProgress then
      ({ active := [id], queuedRun := none }, s.active, s.queuedRun.toList)
    else
      ({ s with queuedRun := some id }, [], s.queuedRun.toList)
  | .finish =>
    ({ active := s.queuedRun.toList, queuedRun := none }, [], [])

/-- Run the scheduler over an event trace, collecting every active run that
was ever cancelled. -/
def schedExec (cancelInProgress : Bool) (s : Sched) :
    List SchedEv → Sched × List Nat
  | [] => (s, [])
  | e :: es =>
    let o := schedStep cancelInProgress s e
    let r := schedExec cancelInProgress o.1 es
    (r.1, o.2.1 ++ r.2)

/-! ## Concrete scenarios used as witnesses and counterexamples -/

/-- Fleet scenario: instance 1 deploys successfully at once; instance 2 stays
`InProgress` for the whole 20-attempt polling window and settles in `Failed`
only afterwards (the remote script may run for up to `--timeout-seconds 120`,
past the 100 s window); the probe against instance 1 passes. -/
def c1Env : FleetEnv :=
  { fleet := [1, 2],
    statusAt := fun i t =>
      if t = 1 then .success
      else if i ≤ 20 then .inProgress else .failed,
    deployFinal := fun t => if t = 1 then .success else .failed,
    probePass := true }

/-- Fleet scenario: a single instance whose deploy invocation is `Failed`
already at the first poll. -/
def c2Env : FleetEnv :=
  { fleet := [1],
    statusAt := fun _ _ => .failed,
    deployFinal := fun _ => .failed,
    probePass := true }

/-- A store whose pre-run "current" pointer for the frontend group holds the
previous build. -/
def c2Store0 : Store :=
  fun k => if k = cKey "frontend" then some "oldBuild" else none

/-- Fleet scenario: a single instance whose deploy invocation is still
`InProgress` at every poll of the window and is timed out by SSM only after
the window; the probe passes. -/
def c4Env : FleetEnv :=
  { fleet := [1],
    statusAt := fun _ _ => .inProgress,
    deployFinal := fun _ => .timedOut,
    probePass := true }

/-- Fleet scenario: the fleet resolves to zero `InService` instances. -/
def c6Env : FleetEnv :=
  { fleet := [],
    statusAt := fun _ _ => .pending,
    deployFinal := fun _ => .success,
    probePass := true }

/-- Fleet scenario: two instances, deploy succeeds everywhere within the
window, but the health probe fails. -/
def c9Env : FleetEnv :=
  { fleet := [1, 2],
    statusAt := fun _ _ => .success,
    deployFinal := fun _ => .success,
    probePass := false }

/-- Single-instance scenario: the backup invocation is deliverable but the
remote `cp -r` fails (for example the disk is full); `|| true` masks this, and
deploy and health check then succeed. -/
def c3Env : SingleEnv :=
  { backupDeliverable := true, backupCpOk := false, deployOk := true,
    failedLive := none, healthOk := true, restoreOk := true }

/-- An instance that already has a live deployment and no backups. -/
def c3Node : Node := { live := some "v0", backups := [] }

/-- Single-instance scenario: backup succeeds, the deploy invocation does not
reach `Success`, and the restore invocation completes. -/
def c5Env : SingleEnv :=
  { backupDeliverable := true, backupCpOk := true, deployOk := false,
    failedLive := some "halfDeployed", healthOk := true, restoreOk := true }

/-- An instance with live deployment `v0` and no prior backups. -/
def c5Node : Node := { live := some "v0", backups := [] }

/-! ## Claims -/

/-- C7: a successful `publish(group, X)` followed by `fetchCurrent(group)`
returns `X` exactly; `publish` succeeds exactly when both the versioned write
and the "current" write succeed; and when only the versioned write succeeds
the call fails but the versioned artifact remains retrievable (no cleanup). -/
theorem C7_publish_roundtrip (putOk : String → Bool) (s : Store)
    (group ts bytes : String) :
    ((publish putOk s group ts bytes).ok = true →
        fetchCurrent (publish putOk s group ts bytes).store group = some bytes)
    ∧ ((publish putOk s group ts bytes).ok = true ↔
        putOk (vKey group ts) = true ∧ putOk (cKey group) = true)
    ∧ (putOk (vKey group ts) = true → putOk (cKey group) = false →
        (publish putOk s group ts bytes).ok = false ∧
          (publish putOk s group ts bytes).store (vKey group ts) =
            some bytes) := by
  by_cases h1 : putOk (vKey group ts) = true
  · by_cases h2 : putOk (cKey group) = true
    · simp [publish, fetchCurrent, Store.put, h1, h2]
    · have h2' : putOk (cKey group) = false := by simpa using h2
      simp [publish, fetchCurrent, Store.put, h1, h2']
  · have h1' : putOk (vKey group ts) = false := by simpa using h1
    simp [publish, fetchCurrent, Store.put, h1']

/-- C7 witness: publishing `"X"` for the frontend group into an empty store
with both writes succeeding, then reading the current pointer, yields `"X"`. -/
theorem C7_publish_roundtrip_witness :
    fetchCurrent
      (publish (fun _ => true) emptyStore "frontend" "20240115" "X").store
      "frontend" = some "X" :=
  (C7_publish_roundtrip (fun _ => true) emptyStore "frontend" "20240115"
    "X").1 (by decide)

/-- C10: the published backend artifact never contains a `.env` file (it is
excluded at packaging time), and the deploy command set copies the target's
pre-existing `.env` into the new application directory before promoting it, so
across a successful backend deployment the `.env` entry is unchanged and every
other entry comes from the artifact. -/
theorem C10_env_preserved (src oldApp : String → Option String) :
    packageBackend src ".env" = none
    ∧ backendDeployApply (packageBackend src) oldApp ".env" = oldApp ".env"
    ∧ ∀ name : String, name ≠ ".env" →
        backendDeployApply (packageBackend src) oldApp name =
          packageBackend src name := by
  refine ⟨by simp [packageBackend, excludedFromZip], ?_, ?_⟩
  · cases h : oldApp ".env" <;>
      simp [backendDeployApply, packageBackend, excludedFromZip, h]
  · intro name h
    simp [backendDeployApply, h]

/-- C10 witness: with a source tree mapping every name to `"code"` and an
instance whose old application directory maps every name to `"DB"`, the
deployed directory holds the artifact's content at `"index.js"`. -/
theorem C10_env_preserved_witness :
    backendDeployApply (packageBackend (fun _ => some "code"))
      (fun _ => some "DB") "index.js" = some "code" :=
  ((C10_env_preserved (fun _ => some "code") (fun _ => some "DB")).2.2
    "index.js" (by decide)).trans (by decide)

/-- C2 (amended): the mutable "current" pointer (the group's `latest/` key) is
advanced unconditionally during the publish step, before the fleet is queried
and before any deploy command is dispatched, and it is never reverted: after
every run it holds the newly published artifact whatever the verdict. -/
theorem C2_current_advanced_at_publish (cfg : FleetCfg) (env : FleetEnv)
    (store0 : Store) (artifact ts : String) :
    (runFleet cfg env store0 artifact ts).store (cKey cfg.group) =
      some artifact := by
  unfold runFleet
  split
  · simp [Store.put]
  · split <;> simp [Store.put]

/-- C2 counterexample: a well-formed run whose only instance reports `Failed`
at the very first poll (so no target ever reported `succeeded`) still leaves
the "current" pointer at the newly published build, different from its pre-run
value — the pointer is not advanced "only after every targeted instance has
reported succeeded", and it is not "unchanged from its pre-run value" on a
failing run. -/
theorem C2_pointer_advanced_on_failure :
    WFFleet frontendCfg c2Env
    ∧ c2Env.deployFinal 1 = SsmStatus.failed
    ∧ (runFleet frontendCfg c2Env c2Store0 "newBuild" "t1").verdict =
        Verdict.failed
    ∧ (runFleet frontendCfg c2Env c2Store0 "newBuild" "t1").store
        (cKey "frontend") = some "newBuild"
    ∧ c2Store0 (cKey "frontend") = some "oldBuild" := by
  decide

/-- C6: a run whose fleet resolves to the empty set of targets terminates with
the `no-op` verdict rather than `failed`, and dispatches no backup, deploy,
health-check or restore operation to any target. -/
theorem C6_empty_fleet_noop (cfg : FleetCfg) (env : FleetEnv) (store0 : Store)
    (artifact ts : String) (h : env.fleet = []) :
    (runFleet cfg env store0 artifact ts).verdict = Verdict.noop
    ∧ Verdict.noop ≠ Verdict.failed
    ∧ (runFleet cfg env store0 artifact ts).deployTargets = []
    ∧ (runFleet cfg env store0 artifact ts).backupTargets = []
    ∧ (runFleet cfg env store0 artifact ts).probe = none
    ∧ (runFleet cfg env store0 artifact ts).restoreTargets = [] := by
  simp [runFleet, h]

/-- C6 witness: the empty-fleet scenario run under the frontend parameters. -/
theorem C6_empty_fleet_noop_witness :
    (runFleet frontendCfg c6Env emptyStore "X" "t1").verdict = Verdict.noop
    ∧ Verdict.noop ≠ Verdict.failed
    ∧ (runFleet frontendCfg c6Env emptyStore "X" "t1").deployTargets = []
    ∧ (runFleet frontendCfg c6Env emptyStore "X" "t1").backupTargets = []
    ∧ (runFleet frontendCfg c6Env emptyStore "X" "t1").probe = none
    ∧ (runFleet frontendCfg c6Env emptyStore "X" "t1").restoreTargets = [] :=
  C6_empty_fleet_noop frontendCfg c6Env emptyStore "X" "t1" rfl

/-- C1 (code bug witnessed): a well-formed run in which instance 2's deploy
invocation settles in `Failed` only after the 20-attempt polling window (it
shows `InProgress` at every poll) finalizes with verdict `success`: the loop
falls through without error, the probe on instance 1 passes, and the run is
summarized as successful even though the invocation's final per-target status
map contains `Failed` — contradicting the claim and the workflow's own
documentation that "If ANY instance fails, entire workflow fails". -/
theorem C1_late_failure_success :
    WFFleet frontendCfg c1Env
    ∧ c1Env.deployFinal 2 = SsmStatus.failed
    ∧ (runFleet frontendCfg c1Env emptyStore "X" "t1").verdict =
        Verdict.success := by
  decide

/-- C4 (amended): exhausting the polling budget with targets still
`pending`/`in_progress` does not fail the deploy step — the loop exits
silently and the run proceeds to the health check, finalizing `success`
exactly when the probe passes; only a `Failed`/`Cancelled`/`TimedOut` status
observed within the budget takes the failure path. -/
theorem C4_exhausted_proceeds_to_probe (cfg : FleetCfg) (env : FleetEnv)
    (store0 : Store) (artifact ts : String)
    (hne : env.fleet.isEmpty = false)
    (hex : pollLoop env.statusAt env.fleet 1 cfg.budget =
      PollResult.exhausted) :
    (runFleet cfg env store0 artifact ts).probe =
      some { targets := [env.fleet.headD 0], settleSec := cfg.settleSec,
             path := cfg.probePath }
    ∧ (runFleet cfg env store0 artifact ts).verdict =
        (if env.probePass then Verdict.success else Verdict.failed) := by
  simp [runFleet, hne, hex]

/-- C4 witness: the all-`InProgress` single-instance scenario exhausts the
frontend's 20-attempt budget and proceeds to the probe. -/
theorem C4_exhausted_proceeds_to_probe_witness :
    (runFleet frontendCfg c4Env emptyStore "X" "t1").probe =
      some { targets := [c4Env.fleet.headD 0],
             settleSec := frontendCfg.settleSec,
             path := frontendCfg.probePath }
    ∧ (runFleet frontendCfg c4Env emptyStore "X" "t1").verdict =
        (if c4Env.probePass then Verdict.success else Verdict.failed) :=
  C4_exhausted_proceeds_to_probe frontendCfg c4Env emptyStore "X" "t1"
    (by decide) (by decide)

/-- C4 counterexample: a well-formed run whose only instance is still
`InProgress` at every one of the 20 polls (SSM times the invocation out only
later) exhausts the budget, yet finalizes `success` — the exhausted budget is
not "treated as `timed_out`" and the run does not take the failure path. -/
theorem C4_exhaustion_not_failure :
    WFFleet frontendCfg c4Env
    ∧ pollLoop c4Env.statusAt c4Env.fleet 1 frontendCfg.budget =
        PollResult.exhausted
    ∧ (runFleet frontendCfg c4Env emptyStore "X" "t1").verdict =
        Verdict.success := by
  decide

/-- C9 (amended): a run that reaches the verifying stage dispatches the health
probe to exactly one representative target — the first instance of the
resolved fleet — with the tier's fixed settle delay, and a failed probe is
treated identically to a deploy command failure: the run finalizes `failed`.
No restore is dispatched — the ASG workflows contain no rollback step. -/
theorem C9_single_probe_failure_path (cfg : FleetCfg) (env : FleetEnv)
    (store0 : Store) (artifact ts : String)
    (hne : env.fleet.isEmpty = false)
    (hnf : pollLoop env.statusAt env.fleet 1 cfg.budget ≠
      PollResult.failedPoll) :
    (runFleet cfg env store0 artifact ts).probe =
      some { targets := [env.fleet.headD 0], settleSec := cfg.settleSec,
             path := cfg.probePath }
    ∧ (env.probePass = false →
        (runFleet cfg env store0 artifact ts).verdict = Verdict.failed
        ∧ (runFleet cfg env store0 artifact ts).restoreTargets = []) := by
  cases hpl : pollLoop env.statusAt env.fleet 1 cfg.budget with
  | failedPoll => exact absurd hpl hnf
  | completed =>
    constructor
    · simp [runFleet, hne, hpl]
    · intro hp
      simp [runFleet, hne, hpl, hp]
  | exhausted =>
    constructor
    · simp [runFleet, hne, hpl]
    · intro hp
      simp [runFleet, hne, hpl, hp]

/-- C9 witness: the two-instance scenario whose deploy completes but whose
probe fails, under the frontend parameters. -/
theorem C9_single_probe_failure_path_witness :
    (runFleet frontendCfg c9Env emptyStore "X" "t1").probe =
      some { targets := [c9Env.fleet.headD 0],
             settleSec := frontendCfg.settleSec,
             path := frontendCfg.probePath }
    ∧ (c9Env.probePass = false →
        (runFleet frontendCfg c9Env emptyStore "X" "t1").verdict =
          Verdict.failed
        ∧ (runFleet frontendCfg c9Env emptyStore "X" "t1").restoreTargets =
            []) :=
  C9_single_probe_failure_path frontendCfg c9Env emptyStore "X" "t1"
    (by decide) (by decide)

/-- C9 counterexample: in the two-instance scenario with a failing probe the
run finalizes `failed` and dispatches no restore command to any target (the
workflows have no rollback step), refuting the claim that a failed probe
"triggers rollback"; the probe itself was dispatched to exactly instance 1. -/
theorem C9_probe_failure_no_restore :
    (runFleet frontendCfg c9Env emptyStore "X" "t1").verdict = Verdict.failed
    ∧ (runFleet frontendCfg c9Env emptyStore "X" "t1").restoreTargets = []
    ∧ (runFleet frontendCfg c9Env emptyStore "X" "t1").probe =
        some { targets := [1], settleSec := 3, path := "/" } := by
  decide

/-- C3 (code bug witnessed): on an instance with an existing live deployment
whose backup `cp -r` fails, the trailing `|| true` makes the backup invocation
report `Success`, so the deploy command set is dispatched although no backup
of the live state exists — and the run can even finalize `success`. This
contradicts the claim (and the repository's own Property 5, "a backup of the
current deployment SHALL exist before any files are modified or replaced")
that backup failure aborts the run before any deploy dispatch. -/
theorem C3_masked_backup_failure :
    (runSingle c3Env c3Node "X").backupDispatched = true
    ∧ (runSingle c3Env c3Node "X").backupCreated = false
    ∧ (runSingle c3Env c3Node "X").node.backups = []
    ∧ (runSingle c3Env c3Node "X").deployDispatched = true
    ∧ (runSingle c3Env c3Node "X").verdict = Verdict.success := by
  decide

/-- C5: when a single-instance run whose backup was created fails during the
deploying or verifying stage, the `Rollback on failure` step dispatches the
restore, the target's live state is restored to its pre-run backup, and the
run finalizes `rolledBack` when the restore invocation completes and `failed`
when the restore invocation itself fails. -/
theorem C5_failure_restores_and_finalizes (env : SingleEnv) (n0 : Node)
    (artifact v : String)
    (hdel : env.backupDeliverable = true)
    (hcp : env.backupCpOk = true)
    (hlive : n0.live = some v)
    (hfail : env.deployOk = false ∨ env.healthOk = false) :
    (runSingle env n0 artifact).restoreDispatched = true
    ∧ (env.restoreOk = true →
        (runSingle env n0 artifact).verdict = Verdict.rolledBack
        ∧ (runSingle env n0 artifact).node.live = some v)
    ∧ (env.restoreOk = false →
        (runSingle env n0 artifact).verdict = Verdict.failed) := by
  cases hd : env.deployOk with
  | false =>
    refine ⟨?_, ?_, ?_⟩
    · simp [runSingle, rollbackStep, hdel, hd]
    · intro hr
      constructor <;>
        simp [runSingle, rollbackStep, doBackup, hdel, hcp, hd, hlive, hr]
    · intro hr
      simp [runSingle, rollbackStep, hdel, hd, hr]
  | true =>
    have hh : env.healthOk = false := by
      rcases hfail with h | h
      · rw [hd] at h; cases h
      · exact h
    refine ⟨?_, ?_, ?_⟩
    · simp [runSingle, rollbackStep, hdel, hd, hh]
    · intro hr
      constructor <;>
        simp [runSingle, rollbackStep, doBackup, hdel, hcp, hd, hh, hlive, hr]
    · intro hr
      simp [runSingle, rollbackStep, hdel, hd, hh, hr]

/-- C5 witness: the scenario with a successful backup of `"v0"`, a deploy
invocation that does not reach `Success`, and a completing restore. -/
theorem C5_failure_restores_and_finalizes_witness :
    (runSingle c5Env c5Node "X").restoreDispatched = true
    ∧ (c5Env.restoreOk = true →
        (runSingle c5Env c5Node "X").verdict = Verdict.rolledBack
        ∧ (runSingle c5Env c5Node "X").node.live = some "v0")
    ∧ (c5Env.restoreOk = false →
        (runSingle c5Env c5Node "X").verdict = Verdict.failed) :=
  C5_failure_restores_and_finalizes c5Env c5Node "X" "v0" rfl rfl rfl
    (Or.inl rfl)

/-- Invariant of the concurrency-group scheduler with
`cancel-in-progress: false`: starting from any state with at most one active
run, every trace keeps at most one active run and never cancels an active
run. -/
theorem schedExec_no_cancel :
    ∀ (evs : List SchedEv) (s : Sched), s.active.length ≤ 1 →
      (schedExec false s evs).1.active.length ≤ 1
      ∧ (schedExec false s evs).2 = []
  | [], _, h => ⟨h, rfl⟩
  | e :: es, s, h => by
    cases e with
    | trig id =>
      by_cases ha : s.active.isEmpty
      · simpa [schedExec, schedStep, ha] using
          schedExec_no_cancel es { active := [id], queuedRun := none }
            (by simp)
      · simpa [schedExec, schedStep, ha] using
          schedExec_no_cancel es { s with queuedRun := some id } h
    | finish =>
      have hq : s.queuedRun.toList.length ≤ 1 := by
        cases s.queuedRun <;> simp
      simpa [schedExec, schedStep] using
        schedExec_no_cancel es
          { active := s.queuedRun.toList, queuedRun := none } hq

/-- C8: under the workflows' concurrency declaration (`group` fixed,
`cancel-in-progress: false`) runs are single-flight: on every event trace from
the empty group at most one run is ever active (so two runs never interleave)
and no active run is ever cancelled; moreover a trigger arriving while a run
is active leaves the active run untouched and parks the new run as the pending
one (a later trigger drops it, a `finish` promotes it). -/
theorem C8_single_flight :
    (∀ evs : List SchedEv,
      (schedExec false schedInit evs).1.active.length ≤ 1
      ∧ (schedExec false schedInit evs).2 = [])
    ∧ (∀ (s : Sched) (id : Nat), s.active.isEmpty = false →
        (schedStep false s (SchedEv.trig id)).1.active = s.active
        ∧ (schedStep false s (SchedEv.trig id)).1.queuedRun = some id
        ∧ (schedStep false s (SchedEv.trig id)).2.1 = []) := by
  constructor
  · intro evs
    exact schedExec_no_cancel evs schedInit (by simp [schedInit])
  · intro s id h
    simp [schedStep, h]

/-- C8 witness: a trace that triggers run 1, triggers run 2 while run 1 is
active, and then finishes run 1, keeps at most one active run with nothing
cancelled; and the second trigger left run 1 active with run 2 pending. -/
theorem C8_single_flight_witness :
    ((schedExec false schedInit
        [SchedEv.trig 1, SchedEv.trig 2, SchedEv.finish]).1.active.length ≤ 1
      ∧ (schedExec false schedInit
          [SchedEv.trig 1, SchedEv.trig 2, SchedEv.finish]).2 = [])
    ∧ (schedStep false { active := [1], queuedRun := none }
        (SchedEv.trig 2)).1.active = [1] := by
  constructor
  · exact C8_single_flight.1 [SchedEv.trig 1, SchedEv.trig 2, SchedEv.finish]
  · exact (C8_single_flight.2 { active := [1], queuedRun := none } 2
      (by decide)).1
